import Mathlib

/-!
# PrivacyShield llama bridge: session controller

A shallow embedding of `app/src/main/cpp/llama_bridge.cpp`.

* The four file-level globals (`g_model`, `g_ctx`, `g_n_cur`, `g_abort`) become the
  record `Session`, passed explicitly through every entry point.
* The inference engine (llama.cpp) is external.  Every value it hands back to the
  bridge is a field of an answer record (`LoadEngine` for `loadModel`, `Engine` for
  `generate`); theorems quantify over all answer records.  Answers inside the decode
  loop are indexed by the iteration number `nGenerated`.
* Every call into the engine and every call on the Java callback object is appended
  to a trace of `Event`s, in program order.
* Pointers are addresses (`Nat`, `0` is `nullptr`).  C++ `int` arithmetic that can
  leave the 32-bit range is wrapped with `wrapInt32` (signed overflow is undefined
  in C++; the Android ABIs compile it to a wrapping add).
* JNI bookkeeping (`GetStringUTFChars`, `GetMethodID`, logging) has no effect on the
  session or on the engine and sink calls and is left out.
-/

namespace PrivacyShield

/-- The type `llama_token` is `int32_t`. -/
abbrev Token := Int

/-- Two's-complement reading of an integer as a 32-bit `int`. -/
def wrapInt32 (x : Int) : Int := (x + 2147483648) % 4294967296 - 2147483648

/-- Two's-complement reading of an integer as a 64-bit `jlong`. -/
def wrapInt64 (x : Int) : Int :=
  (x + 9223372036854775808) % 18446744073709551616 - 9223372036854775808

/-- Global state of the bridge (lines 15-18). -/
structure Session where
  g_model : Nat
  g_ctx : Nat
  g_n_cur : Int
  g_abort : Bool
deriving DecidableEq

/-- The globals as initialised at library load: null handles, cursor 0, flag false. -/
def Session.init : Session :=
  { g_model := 0, g_ctx := 0, g_n_cur := 0, g_abort := false }

/-- Calls that leave the bridge: engine entry points and the two callback methods. -/
inductive Event where
  | llama_free (ctx : Nat)
  | llama_free_model (model : Nat)
  | llama_backend_init
  | llama_backend_free
  | llama_load_model_from_file (path : List Nat)
  | llama_new_context_with_model (model : Nat) (nCtx nThreads : Int)
  | llama_n_vocab
  | llama_tokenize (prompt : List Nat)
  | llama_n_ctx
  | llama_decode (tokens : List Token) (pos : Int)
  | llama_sampler_chain_init
  | llama_sampler_sample
  | llama_token_is_eog (tok : Token)
  | llama_token_to_piece (tok : Token)
  | llama_sampler_free
  | onToken (fragment : List Nat)
  | onDone
deriving DecidableEq

/-- Calls on the Java callback object (the token sink). -/
def Event.isSink : Event → Bool
  | .onToken _ => true
  | .onDone => true
  | _ => false

/-- Calls into the inference engine. -/
def Event.isEngine (e : Event) : Bool := !e.isSink

/-- The sink calls of a trace, in order. -/
def sinkCalls (tr : List Event) : List Event := tr.filter Event.isSink

/-- The engine calls of a trace, in order. -/
def engineCalls (tr : List Event) : List Event := tr.filter Event.isEngine

/-- Number of `onToken` calls in a trace. -/
def countOnToken (tr : List Event) : Nat :=
  (tr.filter (fun e => match e with | .onToken _ => true | _ => false)).length

/-- Number of `onDone` calls in a trace. -/
def countOnDone (tr : List Event) : Nat := tr.count Event.onDone

/-! ## loadModel -/

/-- Answers of the engine during one `loadModel` call.  Object addresses handed out
by the engine are word-aligned and fit `uintptr_t`. -/
structure LoadEngine where
  llama_load_model_from_file : Nat
  llama_new_context_with_model : Nat
  ctx_aligned : llama_new_context_with_model % 4 = 0
  ctx_fits : llama_new_context_with_model < 18446744073709551616

/-- What a `loadModel` call leaves behind and returns. -/
structure LoadResult where
  session : Session
  ret : Int
  trace : List Event

/-- Lines 28-30 and 189-196: release whatever is held and null both handles. -/
def releaseHandles (s : Session) : Session × List Event :=
  let r1 : Nat × List Event :=
    if s.g_ctx ≠ 0 then (0, [Event.llama_free s.g_ctx]) else (s.g_ctx, [])
  let r2 : Nat × List Event :=
    if s.g_model ≠ 0 then (0, [Event.llama_free_model s.g_model]) else (s.g_model, [])
  ({ s with g_ctx := r1.1, g_model := r2.1 }, r1.2 ++ r2.2)

/-- The JNI entry point `loadModel` (lines 23-68). -/
def loadModel (L : LoadEngine) (s : Session) (modelPath : List Nat)
    (nThreads nCtx : Int) : LoadResult :=
  let c := releaseHandles s
  let s0 := c.1
  let tr0 := c.2 ++ [Event.llama_backend_init, Event.llama_load_model_from_file modelPath]
  let model := L.llama_load_model_from_file
  if model = 0 then
    { session := { s0 with g_model := model }, ret := -1, trace := tr0 }
  else
    let ctx := L.llama_new_context_with_model
    let tr1 := tr0 ++ [Event.llama_new_context_with_model model nCtx nThreads]
    if ctx = 0 then
      { session := { s0 with g_model := 0, g_ctx := ctx }, ret := -1,
        trace := tr1 ++ [Event.llama_free_model model] }
    else
      { session := { s0 with g_model := model, g_ctx := ctx, g_n_cur := 0 },
        ret := wrapInt64 ctx,
        trace := tr1 ++ [Event.llama_n_vocab] }

/-! ## abort, getContextUsed, freeModel -/

/-- The JNI entry point `abort` (lines 173-177). -/
def abort (s : Session) : Session := { s with g_abort := true }

/-- The JNI entry point `getContextUsed` (lines 180-183). -/
def getContextUsed (s : Session) : Int := s.g_n_cur

/-- The JNI entry point `freeModel` (lines 186-200). -/
def freeModel (s : Session) : Session × List Event :=
  let c := releaseHandles { s with g_abort := true }
  ({ c.1 with g_n_cur := 0 }, c.2 ++ [Event.llama_backend_free])

/-! ## generate -/

/-- Answers of the engine, and of the other threads, during one `generate` call.
The fields indexed by `Nat` are the answers in the loop iteration that starts with
`nGenerated = k`. -/
structure Engine where
  /-- return value of `llama_tokenize` -/
  llama_tokenize : Int
  /-- entry `i` of the output buffer once `llama_tokenize` has returned -/
  tokenBuffer : Nat → Token
  /-- return value of `llama_n_ctx`, a `uint32_t` -/
  llama_n_ctx : Int
  /-- return value of `llama_decode` on the prompt batch -/
  prefill_decode : Int
  /-- return value of `llama_sampler_sample` -/
  llama_sampler_sample : Nat → Token
  /-- return value of `llama_token_is_eog` -/
  llama_token_is_eog : Nat → Bool
  /-- return value of `llama_token_to_piece` -/
  llama_token_to_piece : Nat → Int
  /-- bytes of `tokenBuf` once `llama_token_to_piece` has returned -/
  tokenBuf : Nat → List Nat
  /-- return value of `llama_decode` on the one-token batch -/
  step_decode : Nat → Int
  /-- whether another thread has stored `true` into `g_abort` since the flag was
  last written or read by `generate`, seen by the `g_abort.load()` of iteration `k` -/
  abort_requested : Nat → Bool

/-- The method `std::vector<llama_token>::resize(n)`: keeps the first `n` elements,
and appends value-initialised (zero) tokens when `n` exceeds the size. -/
def vecResize (v : List Token) (n : Nat) : List Token :=
  v.take n ++ List.replicate (n - v.length) 0

/-- The vector `tokens` after line 103: a zeroed buffer of `prompt.size() + 64`
entries, filled by `llama_tokenize` and resized to the `nTokens` it returned. -/
def tokenization (E : Engine) (prompt : List Nat) : List Token :=
  vecResize ((List.range (prompt.length + 64)).map E.tokenBuffer) E.llama_tokenize.toNat

/-- The value `nCtxMax = (int)llama_n_ctx(g_ctx)` (line 107). -/
def nCtxMax (E : Engine) : Int := wrapInt32 E.llama_n_ctx

/-- Context budget check (lines 108-112) on the vector `tokens` and the count
`nTokens`.  `none` is the `std::length_error` that `resize` throws when the `int`
argument is negative and so converts to a `size_t` above `max_size()`. -/
def contextBudget (tokens : List Token) (nTokens nCtxMax : Int) :
    Option (List Token × Int) :=
  if nTokens ≥ wrapInt32 (nCtxMax - 4) then
    if Int.tdiv nCtxMax 2 < 0 then none
    else
      let tokens' := vecResize tokens (Int.tdiv nCtxMax 2).toNat
      some (tokens', wrapInt32 tokens'.length)
  else some (tokens, nTokens)

/-- The batch `llama_batch_get_one(tokens.data(), nTokens, ...)`: the first `nTokens`
entries behind the pointer. -/
def batchGetOne (tokens : List Token) (nTokens : Int) : List Token :=
  tokens.take nTokens.toNat

/-- The C string handed to `NewStringUTF` in iteration `k` (lines 150-151): the
bytes of `tokenBuf` up to the terminator written at index `pieceLen`. -/
def fragment (E : Engine) (k : Nat) : List Nat :=
  ((E.tokenBuf k).take (E.llama_token_to_piece k).toNat).takeWhile (fun b => b ≠ 0)

/-- Variables live across iterations of the decode loop. -/
structure LoopState where
  g_n_cur : Int
  g_abort : Bool
  nGenerated : Nat
deriving DecidableEq

/-- The autoregressive decode loop (lines 137-165).  Returns the state at loop exit
and the calls made, in order.  The first argument bounds the number of iterations;
`decodeLoop_fuel` shows that `maxTokens - nGenerated` is always enough. -/
def decodeLoop (E : Engine) (maxTokens : Int) : Nat → LoopState → LoopState × List Event
  | 0, st => (st, [])
  | fuel + 1, st =>
    if (st.nGenerated : Int) < maxTokens then
      let k := st.nGenerated
      let flag := st.g_abort || E.abort_requested k
      if flag then ({ st with g_abort := flag }, [])
      else
        let newToken := E.llama_sampler_sample k
        if E.llama_token_is_eog k then
          ({ st with g_abort := flag },
            [Event.llama_sampler_sample, Event.llama_token_is_eog newToken])
        else
          let pieceLen := E.llama_token_to_piece k
          let sink := if pieceLen > 0 then [Event.onToken (fragment E k)] else []
          let body := [Event.llama_sampler_sample, Event.llama_token_is_eog newToken,
            Event.llama_token_to_piece newToken] ++ sink ++
            [Event.llama_decode [newToken] st.g_n_cur]
          if E.step_decode k ≠ 0 then
            ({ st with g_abort := flag }, body)
          else
            let r := decodeLoop E maxTokens fuel
              { g_n_cur := wrapInt32 (st.g_n_cur + 1), g_abort := flag,
                nGenerated := st.nGenerated + 1 }
            (r.1, body ++ r.2)
    else (st, [])

/-- What a `generate` call leaves behind.  `threw` records that a C++ exception
left the function, which terminates the process. -/
structure GenResult where
  session : Session
  trace : List Event
  threw : Bool
deriving DecidableEq

/-- The JNI entry point `generate` (lines 71-170). -/
def generate (E : Engine) (s : Session) (prompt : List Nat) (maxTokens : Int) :
    GenResult :=
  if s.g_ctx = 0 ∨ s.g_model = 0 then
    { session := s, trace := [], threw := false }
  else
    let s1 := { s with g_abort := false }
    let tr1 := [Event.llama_n_vocab, Event.llama_tokenize prompt]
    if E.llama_tokenize < 0 then
      { session := s1, trace := tr1, threw := false }
    else
      let tr2 := tr1 ++ [Event.llama_n_ctx]
      match contextBudget (tokenization E prompt) E.llama_tokenize (nCtxMax E) with
      | none => { session := s1, trace := tr2, threw := true }
      | some (tokens, nTokens) =>
        let tr3 := tr2 ++ [Event.llama_decode (batchGetOne tokens nTokens) 0]
        if E.prefill_decode ≠ 0 then
          { session := s1, trace := tr3, threw := false }
        else
          let r := decodeLoop E maxTokens maxTokens.toNat
            { g_n_cur := nTokens, g_abort := s1.g_abort, nGenerated := 0 }
          { session := { s1 with g_n_cur := r.1.g_n_cur, g_abort := r.1.g_abort },
            trace := tr3 ++ [Event.llama_sampler_chain_init] ++ r.2 ++
              [Event.llama_sampler_free, Event.onDone],
            threw := false }

/-! ## Sequences of calls -/

/-- One call of the application into the bridge, with the answers it will get. -/
inductive Call where
  | load (L : LoadEngine) (modelPath : List Nat) (nThreads nCtx : Int)
  | generate (E : Engine) (prompt : List Nat) (maxTokens : Int)
  | requestAbort
  | unload

/-- The session at the return of a call; `none` when the call does not return. -/
def step (s : Session) : Call → Option Session
  | .load L p t c => some (loadModel L s p t c).session
  | .generate E p m =>
    let r := generate E s p m
    if r.threw then none else some r.session
  | .requestAbort => some (abort s)
  | .unload => some (freeModel s).1

/-- The session at the return of the last call of a sequence. -/
def run : List Call → Session → Option Session
  | [], s => some s
  | c :: cs, s =>
    match step s c with
    | none => none
    | some s' => run cs s'

/-! ## Concrete inputs -/

/-- An engine that tokenizes every prompt to `nTokens` tokens `7, 8, 9, ...`, reports
capacity `n_ctx`, answers the prefill decode with `prefill`, and then samples tokens
`100, 101, ...` with one-byte pieces, never an end-of-generation marker, never a
failed step decode, and no abort request. -/
def sampleEngine (nTokens : Int) (n_ctx : Int) (prefill : Int) : Engine :=
  { llama_tokenize := nTokens
    tokenBuffer := fun i => 7 + (i : Int)
    llama_n_ctx := n_ctx
    prefill_decode := prefill
    llama_sampler_sample := fun k => 100 + (k : Int)
    llama_token_is_eog := fun _ => false
    llama_token_to_piece := fun _ => 1
    tokenBuf := fun k => [97 + k]
    step_decode := fun _ => 0
    abort_requested := fun _ => false }

/-- Answers of a `loadModel` call in which both creations succeed. -/
def sampleLoad : LoadEngine :=
  { llama_load_model_from_file := 4096
    llama_new_context_with_model := 8192
    ctx_aligned := by decide
    ctx_fits := by decide }

/-- Answers of a `loadModel` call in which model creation fails. -/
def failingLoad : LoadEngine :=
  { llama_load_model_from_file := 0
    llama_new_context_with_model := 0
    ctx_aligned := by decide
    ctx_fits := by decide }

/-- A session with a model loaded and nothing generated yet. -/
def loadedSession : Session :=
  { g_model := 4096, g_ctx := 8192, g_n_cur := 0, g_abort := false }

/-- A successful load, a generation that prefills a 10-token prompt and samples
nothing, then a load that fails at model creation. -/
def staleCursorCalls : List Call :=
  [Call.load sampleLoad [47, 109] 4 2048,
   Call.generate (sampleEngine 10 2048 0) [104, 105] 0,
   Call.load failingLoad [47, 120] 4 2048]

/-- A load, a generation, an abort request, an unload and a second load. -/
def sampleCalls : List Call :=
  [Call.load sampleLoad [47, 109] 4 2048,
   Call.generate (sampleEngine 10 2048 0) [104, 105] 3,
   Call.requestAbort,
   Call.unload,
   Call.load sampleLoad [47, 109] 4 2048]

/-- The session that `sampleCalls` ends in. -/
def reloadedSession : Session :=
  { g_model := 4096, g_ctx := 8192, g_n_cur := 0, g_abort := true }

/-! ## Basic facts -/

theorem wrapInt32_of_fits (x : Int) (h1 : -2147483648 ≤ x) (h2 : x < 2147483648) :
    wrapInt32 x = x := by
  unfold wrapInt32; omega

theorem wrapInt32_succ (x : Int) : wrapInt32 (wrapInt32 x + 1) = wrapInt32 (x + 1) := by
  unfold wrapInt32; omega

theorem nCtxMax_lt (E : Engine) : nCtxMax E < 2147483648 := by
  unfold nCtxMax wrapInt32; omega

theorem length_vecResize (v : List Token) (n : Nat) : (vecResize v n).length = n := by
  simp [vecResize]; omega

theorem vecResize_of_le (v : List Token) (n : Nat) (h : n ≤ v.length) :
    vecResize v n = v.take n := by
  simp [vecResize, Nat.sub_eq_zero_of_le h]

theorem length_tokenization (E : Engine) (prompt : List Nat) :
    (tokenization E prompt).length = E.llama_tokenize.toNat := by
  simp [tokenization, length_vecResize]

theorem generate_not_loaded (E : Engine) (s : Session) (prompt : List Nat) (maxTokens : Int)
    (h : s.g_ctx = 0 ∨ s.g_model = 0) :
    generate E s prompt maxTokens = { session := s, trace := [], threw := false } := by
  simp [generate, h]

theorem generate_tokenize_failed (E : Engine) (s : Session) (prompt : List Nat)
    (maxTokens : Int) (h : ¬ (s.g_ctx = 0 ∨ s.g_model = 0)) (ht : E.llama_tokenize < 0) :
    generate E s prompt maxTokens =
      { session := { s with g_abort := false },
        trace := [Event.llama_n_vocab, Event.llama_tokenize prompt], threw := false } := by
  simp [generate, h, ht]

theorem generate_threw (E : Engine) (s : Session) (prompt : List Nat)
    (maxTokens : Int) (h : ¬ (s.g_ctx = 0 ∨ s.g_model = 0)) (ht : 0 ≤ E.llama_tokenize)
    (hb : contextBudget (tokenization E prompt) E.llama_tokenize (nCtxMax E) = none) :
    generate E s prompt maxTokens =
      { session := { s with g_abort := false },
        trace := [Event.llama_n_vocab, Event.llama_tokenize prompt, Event.llama_n_ctx],
        threw := true } := by
  simp [generate, h, not_lt.mpr ht, hb]

theorem generate_prefill_failed (E : Engine) (s : Session) (prompt : List Nat)
    (maxTokens : Int) (h : ¬ (s.g_ctx = 0 ∨ s.g_model = 0)) (ht : 0 ≤ E.llama_tokenize)
    (tokens : List Token) (nTokens : Int)
    (hb : contextBudget (tokenization E prompt) E.llama_tokenize (nCtxMax E)
      = some (tokens, nTokens))
    (hp : E.prefill_decode ≠ 0) :
    generate E s prompt maxTokens =
      { session := { s with g_abort := false },
        trace := [Event.llama_n_vocab, Event.llama_tokenize prompt, Event.llama_n_ctx,
          Event.llama_decode (batchGetOne tokens nTokens) 0],
        threw := false } := by
  simp [generate, h, not_lt.mpr ht, hb, hp]

theorem generate_prefilled (E : Engine) (s : Session) (prompt : List Nat)
    (maxTokens : Int) (h : ¬ (s.g_ctx = 0 ∨ s.g_model = 0)) (ht : 0 ≤ E.llama_tokenize)
    (tokens : List Token) (nTokens : Int)
    (hb : contextBudget (tokenization E prompt) E.llama_tokenize (nCtxMax E)
      = some (tokens, nTokens))
    (hp : E.prefill_decode = 0) :
    generate E s prompt maxTokens =
      { session := { s with
          g_n_cur := (decodeLoop E maxTokens maxTokens.toNat
            { g_n_cur := nTokens, g_abort := false, nGenerated := 0 }).1.g_n_cur,
          g_abort := (decodeLoop E maxTokens maxTokens.toNat
            { g_n_cur := nTokens, g_abort := false, nGenerated := 0 }).1.g_abort },
        trace := [Event.llama_n_vocab, Event.llama_tokenize prompt, Event.llama_n_ctx,
          Event.llama_decode (batchGetOne tokens nTokens) 0, Event.llama_sampler_chain_init] ++
          (decodeLoop E maxTokens maxTokens.toNat
            { g_n_cur := nTokens, g_abort := false, nGenerated := 0 }).2 ++
          [Event.llama_sampler_free, Event.onDone],
        threw := false } := by
  simp [generate, h, not_lt.mpr ht, hb, hp]

/-! ## The decode loop -/

/-- The decode loop terminates: any bound of at least `maxTokens - nGenerated`
iterations gives the same exit state and the same calls. -/
theorem decodeLoop_fuel (E : Engine) (maxTokens : Int) :
    ∀ (f1 f2 : Nat) (st : LoopState),
      (maxTokens - st.nGenerated).toNat ≤ f1 → (maxTokens - st.nGenerated).toNat ≤ f2 →
      decodeLoop E maxTokens f1 st = decodeLoop E maxTokens f2 st := by
  intro f1
  induction f1 with
  | zero =>
    intro f2 st h1 _
    have hg : ¬ ((st.nGenerated : Int) < maxTokens) := by omega
    cases f2 <;> simp [decodeLoop, hg]
  | succ n ih =>
    intro f2 st h1 h2
    by_cases hg : (st.nGenerated : Int) < maxTokens
    · cases f2 with
      | zero => omega
      | succ f2 =>
        have hrec := ih f2
          { g_n_cur := wrapInt32 (st.g_n_cur + 1),
            g_abort := st.g_abort || E.abort_requested st.nGenerated,
            nGenerated := st.nGenerated + 1 }
          (by simp only [Nat.cast_add, Nat.cast_one]; omega)
          (by simp only [Nat.cast_add, Nat.cast_one]; omega)
        simp only [decodeLoop]
        rw [hrec]
    · cases f2 <;> simp [decodeLoop, hg]

/-- The bound `maxTokens.toNat` that `generate` passes to the loop is enough: a larger
one changes nothing. -/
theorem decodeLoop_fuel_generate (E : Engine) (maxTokens : Int) (fuel : Nat)
    (cur : Int) (flag : Bool) (h : maxTokens.toNat ≤ fuel) :
    decodeLoop E maxTokens fuel { g_n_cur := cur, g_abort := flag, nGenerated := 0 } =
      decodeLoop E maxTokens maxTokens.toNat
        { g_n_cur := cur, g_abort := flag, nGenerated := 0 } :=
  decodeLoop_fuel E maxTokens fuel maxTokens.toNat _
    (by simp only [Nat.cast_zero, sub_zero]; exact h)
    (by simp only [Nat.cast_zero, sub_zero]; exact le_refl _)

theorem sinkCalls_append (a b : List Event) :
    sinkCalls (a ++ b) = sinkCalls a ++ sinkCalls b := by
  simp [sinkCalls]

theorem sinkCalls_body (t : Token) (c : Int) (sink : List Event) :
    sinkCalls ([Event.llama_sampler_sample, Event.llama_token_is_eog t,
      Event.llama_token_to_piece t] ++ sink ++ [Event.llama_decode [t] c]) = sinkCalls sink := by
  simp [sinkCalls, List.filter_append, Event.isSink]

/-- One iteration of the decode loop, by cases on the answers it gets. -/
theorem decodeLoop_succ (E : Engine) (maxTokens : Int) (fuel : Nat) (st : LoopState) :
    decodeLoop E maxTokens (fuel + 1) st =
      if (st.nGenerated : Int) < maxTokens then
        if (st.g_abort || E.abort_requested st.nGenerated) = true then
          ({ st with g_abort := true }, [])
        else if E.llama_token_is_eog st.nGenerated = true then
          ({ st with g_abort := false },
            [Event.llama_sampler_sample,
              Event.llama_token_is_eog (E.llama_sampler_sample st.nGenerated)])
        else if E.step_decode st.nGenerated ≠ 0 then
          ({ st with g_abort := false },
            [Event.llama_sampler_sample,
              Event.llama_token_is_eog (E.llama_sampler_sample st.nGenerated),
              Event.llama_token_to_piece (E.llama_sampler_sample st.nGenerated)] ++
            (if E.llama_token_to_piece st.nGenerated > 0
              then [Event.onToken (fragment E st.nGenerated)] else []) ++
            [Event.llama_decode [E.llama_sampler_sample st.nGenerated] st.g_n_cur])
        else
          ((decodeLoop E maxTokens fuel
              { g_n_cur := wrapInt32 (st.g_n_cur + 1), g_abort := false,
                nGenerated := st.nGenerated + 1 }).1,
            [Event.llama_sampler_sample,
              Event.llama_token_is_eog (E.llama_sampler_sample st.nGenerated),
              Event.llama_token_to_piece (E.llama_sampler_sample st.nGenerated)] ++
            (if E.llama_token_to_piece st.nGenerated > 0
              then [Event.onToken (fragment E st.nGenerated)] else []) ++
            [Event.llama_decode [E.llama_sampler_sample st.nGenerated] st.g_n_cur] ++
            (decodeLoop E maxTokens fuel
              { g_n_cur := wrapInt32 (st.g_n_cur + 1), g_abort := false,
                nGenerated := st.nGenerated + 1 }).2)
      else (st, []) := by
  rw [decodeLoop]
  by_cases hfl : (st.g_abort || E.abort_requested st.nGenerated) = true
  · simp [hfl]
  · simp only [hfl]
    have hfl' : (st.g_abort || E.abort_requested st.nGenerated) = false := by
      simpa using hfl
    simp [hfl']

/-- The sink calls made inside the decode loop are `onToken` calls only, at most one
per iteration. -/
theorem decodeLoop_sinkCalls (E : Engine) (maxTokens : Int) :
    ∀ (fuel : Nat) (st : LoopState), ∃ frags : List (List Nat),
      sinkCalls (decodeLoop E maxTokens fuel st).2 = frags.map Event.onToken ∧
      frags.length ≤ fuel := by
  intro fuel
  induction fuel with
  | zero => intro st; exact ⟨[], by simp [decodeLoop, sinkCalls], by simp⟩
  | succ n ih =>
    intro st
    obtain ⟨frags, hf, hlen⟩ := ih
      { g_n_cur := wrapInt32 (st.g_n_cur + 1), g_abort := false,
        nGenerated := st.nGenerated + 1 }
    rw [decodeLoop_succ]
    by_cases hg : (st.nGenerated : Int) < maxTokens
    swap
    · rw [if_neg hg]; exact ⟨[], rfl, by simp⟩
    rw [if_pos hg]
    by_cases hfl : (st.g_abort || E.abort_requested st.nGenerated) = true
    · rw [if_pos hfl]; exact ⟨[], rfl, by simp⟩
    rw [if_neg hfl]
    by_cases he : E.llama_token_is_eog st.nGenerated = true
    · rw [if_pos he]; exact ⟨[], rfl, by simp⟩
    rw [if_neg he]
    by_cases hs : E.step_decode st.nGenerated ≠ 0
    · rw [if_pos hs]
      by_cases hp : E.llama_token_to_piece st.nGenerated > 0
      · rw [if_pos hp]; exact ⟨[fragment E st.nGenerated], rfl, by simp⟩
      · rw [if_neg hp]; exact ⟨[], rfl, by simp⟩
    · rw [if_neg hs]
      by_cases hp : E.llama_token_to_piece st.nGenerated > 0
      · rw [if_pos hp]
        refine ⟨fragment E st.nGenerated :: frags, ?_, by simp; omega⟩
        show sinkCalls (_ ++ _) = _
        rw [sinkCalls_append, sinkCalls_body, hf]; rfl
      · rw [if_neg hp]
        refine ⟨frags, ?_, by omega⟩
        show sinkCalls (_ ++ _) = _
        rw [sinkCalls_append, sinkCalls_body, hf]; rfl

/-- When no step stops the loop early (no end-of-generation marker, every step
decode succeeds, every fragment is non-empty, no abort is seen), the loop runs its
whole budget: one `onToken` per iteration and a cursor advanced once per iteration. -/
theorem decodeLoop_steady (E : Engine) (maxTokens : Int)
    (hstep : ∀ k, E.step_decode k = 0) (heog : ∀ k, E.llama_token_is_eog k = false)
    (hpiece : ∀ k, 0 < E.llama_token_to_piece k)
    (habort : ∀ k, E.abort_requested k = false) :
    ∀ (fuel : Nat) (st : LoopState), st.g_abort = false →
      (st.nGenerated : Int) + fuel ≤ maxTokens → wrapInt32 st.g_n_cur = st.g_n_cur →
      (decodeLoop E maxTokens fuel st).1 =
        { g_n_cur := wrapInt32 (st.g_n_cur + fuel), g_abort := false,
          nGenerated := st.nGenerated + fuel } ∧
      sinkCalls (decodeLoop E maxTokens fuel st).2 =
        (List.range' st.nGenerated fuel).map (fun k => Event.onToken (fragment E k)) := by
  intro fuel
  induction fuel with
  | zero =>
    intro st ha _ hfit
    cases st
    simp only [decodeLoop, Nat.cast_zero, add_zero, Nat.add_zero]
    simp_all [sinkCalls]
  | succ n ih =>
    intro st ha hle hfit
    have hg : (st.nGenerated : Int) < maxTokens := by
      simp only [Nat.cast_add, Nat.cast_one] at hle; omega
    have hfl : ¬ (st.g_abort || E.abort_requested st.nGenerated) = true := by
      simp [ha, habort]
    obtain ⟨h1, h2⟩ := ih
      { g_n_cur := wrapInt32 (st.g_n_cur + 1), g_abort := false,
        nGenerated := st.nGenerated + 1 } rfl
      (by simp only [Nat.cast_add, Nat.cast_one] at hle ⊢; omega)
      (by show wrapInt32 (wrapInt32 (st.g_n_cur + 1)) = wrapInt32 (st.g_n_cur + 1)
          unfold wrapInt32; omega)
    rw [decodeLoop_succ, if_pos hg, if_neg hfl, if_neg (by simp [heog]),
      if_neg (by simp [hstep]), if_pos (hpiece _)]
    refine ⟨?_, ?_⟩
    · rw [h1]
      simp only [LoopState.mk.injEq, Nat.cast_add, Nat.cast_one, true_and]
      refine ⟨?_, by omega⟩
      unfold wrapInt32; omega
    · show sinkCalls (_ ++ _) = _
      rw [sinkCalls_append, sinkCalls_body, h2]
      rfl

/-! ## Counting sink calls -/

theorem countOnDone_of_sinkCalls (tr : List Event) (frags : List (List Nat))
    (h : sinkCalls tr = frags.map Event.onToken ++ [Event.onDone]) :
    countOnDone tr = 1 := by
  have h1 : countOnDone tr = List.count Event.onDone (sinkCalls tr) := by
    unfold countOnDone sinkCalls
    rw [List.count_filter]; rfl
  have h2 : ∀ fs : List (List Nat), List.count Event.onDone (fs.map Event.onToken) = 0 := by
    intro fs
    induction fs with
    | nil => rfl
    | cons a t ih => simp [List.count_cons, ih]
  rw [h1, h, List.count_append, h2]; rfl

theorem countOnToken_of_sinkCalls (tr : List Event) (frags : List (List Nat))
    (tl : List Event) (htl : tl = [] ∨ tl = [Event.onDone])
    (h : sinkCalls tr = frags.map Event.onToken ++ tl) :
    countOnToken tr = frags.length := by
  have h1 : countOnToken tr = countOnToken (sinkCalls tr) := by
    unfold countOnToken sinkCalls
    rw [List.filter_filter]
    congr 2
    funext e
    cases e <;> rfl
  have h2 : ∀ fs : List (List Nat), countOnToken (fs.map Event.onToken) = fs.length := by
    intro fs
    induction fs with
    | nil => rfl
    | cons a t ih =>
      unfold countOnToken at ih ⊢
      simp only [List.map_cons, List.filter_cons_of_pos, List.length_cons, ih]
  rw [h1, h]
  have h3 : countOnToken (List.map Event.onToken frags ++ tl) =
      countOnToken (List.map Event.onToken frags) + countOnToken tl := by
    unfold countOnToken; rw [List.filter_append, List.length_append]
  rw [h3, h2]
  rcases htl with rfl | rfl <;> rfl

/-- Sink calls of a `generate` call that got past the prefill decode. -/
theorem sinkCalls_prefilled (pre loop : List Event) (frags : List (List Nat))
    (hpre : sinkCalls pre = []) (hloop : sinkCalls loop = frags.map Event.onToken) :
    sinkCalls (pre ++ loop ++ [Event.llama_sampler_free, Event.onDone]) =
      frags.map Event.onToken ++ [Event.onDone] := by
  rw [sinkCalls_append, sinkCalls_append, hpre, hloop]; rfl

/-! ## The sink protocol of `generate` -/

/-- Sink calls of a `generate` call on a loaded session whose tokenization and prefill
decode succeed: some `onToken` calls, at most `maxTokens.toNat` of them, then `onDone`. -/
theorem sinkCalls_generate (E : Engine) (s : Session) (prompt : List Nat) (maxTokens : Int)
    (hctx : s.g_ctx ≠ 0) (hmodel : s.g_model ≠ 0)
    (htok : 0 ≤ E.llama_tokenize) (hpre : E.prefill_decode = 0)
    (hret : (generate E s prompt maxTokens).threw = false) :
    ∃ frags : List (List Nat), ∃ mid : List Event,
      (generate E s prompt maxTokens).trace = mid ++ [Event.llama_sampler_free, Event.onDone] ∧
      sinkCalls (generate E s prompt maxTokens).trace =
        frags.map Event.onToken ++ [Event.onDone] ∧
      frags.length ≤ maxTokens.toNat := by
  have hl : ¬ (s.g_ctx = 0 ∨ s.g_model = 0) := by simp [hctx, hmodel]
  cases hb : contextBudget (tokenization E prompt) E.llama_tokenize (nCtxMax E) with
  | none =>
    rw [generate_threw E s prompt maxTokens hl htok hb] at hret
    simp at hret
  | some p =>
    obtain ⟨tokens, nTokens⟩ := p
    obtain ⟨frags, hf, hlen⟩ := decodeLoop_sinkCalls E maxTokens maxTokens.toNat
      { g_n_cur := nTokens, g_abort := false, nGenerated := 0 }
    rw [generate_prefilled E s prompt maxTokens hl htok tokens nTokens hb hpre]
    exact ⟨frags, _, rfl, sinkCalls_prefilled _ _ frags rfl hf, hlen⟩

/-- C1: on a loaded session, when tokenization and the prefill decode succeed (and so
the call returns), the sink calls of `generate` are zero or more `onToken` calls
followed by exactly one `onDone`, which is the last call of all; the number of
`onToken` calls is at most `max(maxTokens, 0)`.  This holds for every answer of the
engine inside the loop, every initial value of the abort flag and every `maxTokens`. -/
theorem generate_sink_protocol (E : Engine) (s : Session) (prompt : List Nat)
    (maxTokens : Int) (hctx : s.g_ctx ≠ 0) (hmodel : s.g_model ≠ 0)
    (htok : 0 ≤ E.llama_tokenize) (hpre : E.prefill_decode = 0)
    (hret : (generate E s prompt maxTokens).threw = false) :
    (∃ frags : List (List Nat),
      sinkCalls (generate E s prompt maxTokens).trace =
        frags.map Event.onToken ++ [Event.onDone] ∧
      (frags.length : Int) ≤ max maxTokens 0) ∧
    (generate E s prompt maxTokens).trace.getLast? = some Event.onDone ∧
    countOnDone (generate E s prompt maxTokens).trace = 1 ∧
    (countOnToken (generate E s prompt maxTokens).trace : Int) ≤ max maxTokens 0 ∧
    (maxTokens ≤ 0 → countOnToken (generate E s prompt maxTokens).trace = 0) := by
  obtain ⟨frags, mid, htr, hs, hlen⟩ :=
    sinkCalls_generate E s prompt maxTokens hctx hmodel htok hpre hret
  have hcount := countOnToken_of_sinkCalls _ frags [Event.onDone] (Or.inr rfl) hs
  have hlen' : (frags.length : Int) ≤ max maxTokens 0 := by
    rcases le_total maxTokens 0 with h | h
    · rw [max_eq_right h]; omega
    · rw [max_eq_left h]; omega
  refine ⟨⟨frags, hs, hlen'⟩, ?_, countOnDone_of_sinkCalls _ frags hs, ?_, ?_⟩
  · rw [htr]; simp
  · rw [hcount]; exact hlen'
  · intro hm
    rw [hcount]; omega

/-- C1, at concrete calls: with a budget of three tokens `onDone` is called once, and
with a budget of zero `onToken` is never called. -/
theorem generate_sink_protocol_witness :
    countOnDone (generate (sampleEngine 3 2048 0) loadedSession [104, 105] 3).trace = 1 ∧
    countOnToken (generate (sampleEngine 3 2048 0) loadedSession [104, 105] 0).trace = 0 :=
  ⟨(generate_sink_protocol (sampleEngine 3 2048 0) loadedSession [104, 105] 3
      (by decide) (by decide) (by decide) rfl (by decide)).2.2.1,
   (generate_sink_protocol (sampleEngine 3 2048 0) loadedSession [104, 105] 0
      (by decide) (by decide) (by decide) rfl (by decide)).2.2.2.2 (by decide)⟩

/-- C2 as stated fails: on a loaded session, a `generate` call whose tokenization
returns a negative length makes no `onDone` call, and neither does one whose prefill
decode returns non-zero. -/
theorem generate_onDone_counterexample :
    loadedSession.g_model ≠ 0 ∧ loadedSession.g_ctx ≠ 0 ∧
    countOnDone (generate (sampleEngine (-1) 2048 0) loadedSession [104, 105] 5).trace = 0 ∧
    countOnDone (generate (sampleEngine 3 2048 1) loadedSession [104, 105] 5).trace = 0 := by
  decide

/-- C2, amended: a `generate` call made while a model is loaded, and that returns,
invokes `onDone` exactly once when tokenization returned a non-negative length and the
prefill decode returned 0, whatever the engine answers to sampling and step decodes;
it does not invoke `onDone` when tokenization returned a negative length or the
prefill decode returned non-zero. -/
theorem generate_onDone_once_after_prefill (E : Engine) (s : Session) (prompt : List Nat)
    (maxTokens : Int) (hctx : s.g_ctx ≠ 0) (hmodel : s.g_model ≠ 0)
    (hret : (generate E s prompt maxTokens).threw = false) :
    (0 ≤ E.llama_tokenize → E.prefill_decode = 0 →
      countOnDone (generate E s prompt maxTokens).trace = 1) ∧
    (E.llama_tokenize < 0 ∨ E.prefill_decode ≠ 0 →
      countOnDone (generate E s prompt maxTokens).trace = 0) := by
  have hl : ¬ (s.g_ctx = 0 ∨ s.g_model = 0) := by simp [hctx, hmodel]
  refine ⟨?_, ?_⟩
  · intro htok hpre
    obtain ⟨frags, _, _, hs, _⟩ :=
      sinkCalls_generate E s prompt maxTokens hctx hmodel htok hpre hret
    exact countOnDone_of_sinkCalls _ frags hs
  · intro h
    by_cases htok : E.llama_tokenize < 0
    · rw [generate_tokenize_failed E s prompt maxTokens hl htok]; rfl
    · have htok' : 0 ≤ E.llama_tokenize := not_lt.mp htok
      have hpre : E.prefill_decode ≠ 0 := by
        rcases h with h | h
        · exact absurd h htok
        · exact h
      cases hb : contextBudget (tokenization E prompt) E.llama_tokenize (nCtxMax E) with
      | none => rw [generate_threw E s prompt maxTokens hl htok' hb]; rfl
      | some p =>
        obtain ⟨tokens, nTokens⟩ := p
        rw [generate_prefill_failed E s prompt maxTokens hl htok' tokens nTokens hb hpre]
        rfl

/-- C2 amended, at concrete calls: one `onDone` after a successful prefill, none
after a failed tokenization. -/
theorem generate_onDone_once_after_prefill_witness :
    countOnDone (generate (sampleEngine 3 2048 0) loadedSession [104, 105] 2).trace = 1 ∧
    countOnDone (generate (sampleEngine (-1) 2048 0) loadedSession [104, 105] 2).trace = 0 :=
  ⟨(generate_onDone_once_after_prefill (sampleEngine 3 2048 0) loadedSession [104, 105] 2
      (by decide) (by decide) (by decide)).1 (by decide) rfl,
   (generate_onDone_once_after_prefill (sampleEngine (-1) 2048 0) loadedSession [104, 105] 2
      (by decide) (by decide) (by decide)).2 (Or.inl (by decide))⟩

/-! ## A full budget -/

/-- Below the budget threshold the prompt is decoded whole. -/
theorem contextBudget_below (E : Engine) (tokens : List Token)
    (hn0 : 0 ≤ E.llama_tokenize) (hlim : E.llama_tokenize < nCtxMax E - 4) :
    contextBudget tokens E.llama_tokenize (nCtxMax E) = some (tokens, E.llama_tokenize) := by
  have h1 := nCtxMax_lt E
  have h2 : wrapInt32 (nCtxMax E - 4) = nCtxMax E - 4 :=
    wrapInt32_of_fits _ (by omega) (by omega)
  unfold contextBudget
  rw [h2, if_neg (by omega)]

/-- A `generate` call that nothing stops early: the prompt fits, the prefill and every
step decode succeed, no end-of-generation marker is sampled, every fragment is
non-empty and no abort is seen.  The cursor is computed in 32-bit arithmetic. -/
theorem generate_steady (E : Engine) (s : Session) (prompt : List Nat) (m : Int)
    (hctx : s.g_ctx ≠ 0) (hmodel : s.g_model ≠ 0)
    (hn0 : 0 ≤ E.llama_tokenize) (hnfit : E.llama_tokenize < 2147483648)
    (hlim : E.llama_tokenize < nCtxMax E - 4) (hm : 0 ≤ m)
    (hpre : E.prefill_decode = 0) (hstep : ∀ k, E.step_decode k = 0)
    (heog : ∀ k, E.llama_token_is_eog k = false)
    (hpiece : ∀ k, 0 < E.llama_token_to_piece k)
    (habort : ∀ k, E.abort_requested k = false) :
    (generate E s prompt m).threw = false ∧
    getContextUsed (generate E s prompt m).session = wrapInt32 (E.llama_tokenize + m) ∧
    sinkCalls (generate E s prompt m).trace =
      (List.range m.toNat).map (fun k => Event.onToken (fragment E k)) ++ [Event.onDone] := by
  have hl : ¬ (s.g_ctx = 0 ∨ s.g_model = 0) := by simp [hctx, hmodel]
  have hb := contextBudget_below E (tokenization E prompt) hn0 hlim
  obtain ⟨h1, h2⟩ := decodeLoop_steady E m hstep heog hpiece habort m.toNat
    { g_n_cur := E.llama_tokenize, g_abort := false, nGenerated := 0 } rfl
    (by simp only [Nat.cast_zero]; omega)
    (wrapInt32_of_fits E.llama_tokenize (by omega) hnfit)
  rw [generate_prefilled E s prompt m hl hn0 _ _ hb hpre]
  refine ⟨rfl, ?_, ?_⟩
  · show (decodeLoop E m m.toNat _).1.g_n_cur = _
    rw [h1]
    show wrapInt32 (E.llama_tokenize + (m.toNat : Int)) = _
    rw [Int.toNat_of_nonneg hm]
  · rw [List.range_eq_range']
    have hmap : (List.range' 0 m.toNat).map (fun k => Event.onToken (fragment E k)) =
        ((List.range' 0 m.toNat).map (fun k => fragment E k)).map Event.onToken := by
      rw [List.map_map]; rfl
    rw [hmap]
    exact sinkCalls_prefilled _ _ _ rfl (by rw [h2]; exact hmap)

/-- C3 as stated fails: with capacity 2048, a prompt of 10 tokens and
`maxTokens = 2147483647`, every hypothesis of the claim holds, and `contextUsed()`
afterwards is not `10 + 2147483647`, a value no `jint` can hold. -/
theorem generate_cursor_counterexample :
    loadedSession.g_ctx ≠ 0 ∧ loadedSession.g_model ≠ 0 ∧
    nCtxMax (sampleEngine 10 2048 0) = 2048 ∧
    (sampleEngine 10 2048 0).llama_tokenize = 10 ∧
    (sampleEngine 10 2048 0).prefill_decode = 0 ∧
    (∀ k, (sampleEngine 10 2048 0).step_decode k = 0) ∧
    (∀ k, (sampleEngine 10 2048 0).llama_token_is_eog k = false) ∧
    (∀ k, 0 < (sampleEngine 10 2048 0).llama_token_to_piece k) ∧
    (∀ k, (sampleEngine 10 2048 0).abort_requested k = false) ∧
    getContextUsed (generate (sampleEngine 10 2048 0) loadedSession [104, 105]
      2147483647).session = -2147483639 ∧
    getContextUsed (generate (sampleEngine 10 2048 0) loadedSession [104, 105]
      2147483647).session ≠ 10 + 2147483647 := by
  have h := (generate_steady (sampleEngine 10 2048 0) loadedSession [104, 105] 2147483647
    (by decide) (by decide) (by decide) (by decide) (by decide) (by decide) rfl
    (fun _ => rfl) (fun _ => rfl) (fun _ => (by decide : (0 : Int) < 1)) (fun _ => rfl)).2.1
  have hv : wrapInt32 ((sampleEngine 10 2048 0).llama_tokenize + 2147483647)
      = -2147483639 := by decide
  rw [hv] at h
  refine ⟨by decide, by decide, by decide, rfl, rfl, fun _ => rfl, fun _ => rfl,
    fun _ => (by decide : (0 : Int) < 1), fun _ => rfl, h, ?_⟩
  rw [h]; decide

/-- C3, amended with the bound `n + m ≤ 2147483647`: on a loaded session with
capacity `limit`, a prompt of `n < limit - 4` tokens and `maxTokens = m ≥ 0`, when the
prefill and every step decode succeed, no sampled token is an end-of-generation
marker, every fragment is non-empty and no abort is requested during the call,
`generate` makes exactly `m` `onToken` calls, in generation order, followed by one
`onDone`, and `contextUsed()` afterwards returns `n + m`. -/
theorem generate_full_budget (E : Engine) (s : Session) (prompt : List Nat) (n m : Int)
    (hctx : s.g_ctx ≠ 0) (hmodel : s.g_model ≠ 0)
    (hn : E.llama_tokenize = n) (hn0 : 0 ≤ n) (hlim : n < nCtxMax E - 4) (hm : 0 ≤ m)
    (hpre : E.prefill_decode = 0) (hstep : ∀ k, E.step_decode k = 0)
    (heog : ∀ k, E.llama_token_is_eog k = false)
    (hpiece : ∀ k, 0 < E.llama_token_to_piece k)
    (habort : ∀ k, E.abort_requested k = false)
    (hfit : n + m ≤ 2147483647) :
    (generate E s prompt m).threw = false ∧
    sinkCalls (generate E s prompt m).trace =
      (List.range m.toNat).map (fun k => Event.onToken (fragment E k)) ++ [Event.onDone] ∧
    (countOnToken (generate E s prompt m).trace : Int) = m ∧
    countOnDone (generate E s prompt m).trace = 1 ∧
    getContextUsed (generate E s prompt m).session = n + m := by
  subst hn
  obtain ⟨h1, h2, h3⟩ := generate_steady E s prompt m hctx hmodel hn0 (by omega) hlim hm
    hpre hstep heog hpiece habort
  have h3' : sinkCalls (generate E s prompt m).trace =
      ((List.range m.toNat).map (fun k => fragment E k)).map Event.onToken
        ++ [Event.onDone] := by
    rw [h3, List.map_map]; rfl
  refine ⟨h1, h3, ?_, countOnDone_of_sinkCalls _ _ h3', ?_⟩
  · rw [countOnToken_of_sinkCalls _ _ [Event.onDone] (Or.inr rfl) h3']
    simp [Int.toNat_of_nonneg hm]
  · rw [h2]; exact wrapInt32_of_fits _ (by omega) (by omega)

/-- C3 amended, at the scenario of the specification: capacity 2048, a prompt of 10
tokens and `maxTokens = 5` give 5 `onToken` calls and `contextUsed() = 15`. -/
theorem generate_full_budget_witness :
    (countOnToken (generate (sampleEngine 10 2048 0) loadedSession [104, 105] 5).trace : Int)
      = 5 ∧
    countOnDone (generate (sampleEngine 10 2048 0) loadedSession [104, 105] 5).trace = 1 ∧
    getContextUsed (generate (sampleEngine 10 2048 0) loadedSession [104, 105] 5).session
      = 10 + 5 :=
  (generate_full_budget (sampleEngine 10 2048 0) loadedSession [104, 105] 10 5
    (by decide) (by decide) rfl (by decide) (by decide) (by decide) rfl
    (fun _ => rfl) (fun _ => rfl) (fun _ => (by decide : (0 : Int) < 1)) (fun _ => rfl) (by decide)).2.2

/-! ## Truncation of long prompts -/

/-- At or above the capacity the budget check keeps the first `limit / 2` tokens. -/
theorem contextBudget_truncates (E : Engine) (prompt : List Nat)
    (hlim : 0 ≤ nCtxMax E) (hn : nCtxMax E ≤ E.llama_tokenize) :
    contextBudget (tokenization E prompt) E.llama_tokenize (nCtxMax E) =
      some ((tokenization E prompt).take (nCtxMax E / 2).toNat, nCtxMax E / 2) := by
  have h1 := nCtxMax_lt E
  have h2 : wrapInt32 (nCtxMax E - 4) = nCtxMax E - 4 :=
    wrapInt32_of_fits _ (by omega) (by omega)
  have h3 : Int.tdiv (nCtxMax E) 2 = nCtxMax E / 2 := Int.tdiv_eq_ediv hlim (by decide)
  have h4 : (nCtxMax E / 2).toNat ≤ (tokenization E prompt).length := by
    rw [length_tokenization]; omega
  have h5 : vecResize (tokenization E prompt) (nCtxMax E / 2).toNat =
      (tokenization E prompt).take (nCtxMax E / 2).toNat := vecResize_of_le _ _ h4
  have h6 : ((tokenization E prompt).take (nCtxMax E / 2).toNat).length =
      (nCtxMax E / 2).toNat := by
    rw [List.length_take]; omega
  have h7 : wrapInt32 (((nCtxMax E / 2).toNat : Nat) : Int) = nCtxMax E / 2 := by
    rw [Int.toNat_of_nonneg (by omega)]
    exact wrapInt32_of_fits _ (by omega) (by omega)
  unfold contextBudget
  rw [h2, if_pos (by omega), h3, if_neg (by omega)]
  simp only [h5, h6, h7]

theorem decodeLoop_zero (E : Engine) (maxTokens : Int) (st : LoopState) :
    decodeLoop E maxTokens 0 st = (st, []) := rfl

/-- Whenever the budget check leaves the prompt alone (`n < limit - 4`) or really
shortens it (`limit / 2 ≤ n`), which covers every capacity of 8 or more, the tokens
kept are the first ones of the tokenization. -/
theorem contextBudget_keeps_head (E : Engine) (prompt : List Nat)
    (hlim : 0 ≤ nCtxMax E) (hn0 : 0 ≤ E.llama_tokenize)
    (h : E.llama_tokenize < nCtxMax E - 4 ∨ nCtxMax E / 2 ≤ E.llama_tokenize) :
    ∃ tokens nTokens,
      contextBudget (tokenization E prompt) E.llama_tokenize (nCtxMax E) =
        some (tokens, nTokens) ∧
      tokens <+: tokenization E prompt := by
  by_cases hb : E.llama_tokenize < nCtxMax E - 4
  · exact ⟨_, _, contextBudget_below E _ hn0 hb, List.prefix_refl _⟩
  · have hle : nCtxMax E / 2 ≤ E.llama_tokenize := by
      rcases h with h | h
      · exact absurd h hb
      · exact h
    have h1 := nCtxMax_lt E
    have h2 : wrapInt32 (nCtxMax E - 4) = nCtxMax E - 4 :=
      wrapInt32_of_fits _ (by omega) (by omega)
    have h3 : Int.tdiv (nCtxMax E) 2 = nCtxMax E / 2 := Int.tdiv_eq_ediv hlim (by decide)
    have h4 : (nCtxMax E / 2).toNat ≤ (tokenization E prompt).length := by
      rw [length_tokenization]; omega
    refine ⟨(tokenization E prompt).take (nCtxMax E / 2).toNat,
      wrapInt32 ((tokenization E prompt).take (nCtxMax E / 2).toNat).length, ?_,
      ⟨(tokenization E prompt).drop (nCtxMax E / 2).toNat, List.take_append_drop _ _⟩⟩
    unfold contextBudget
    rw [h2, if_pos (by omega), h3, if_neg (by omega)]
    simp only [vecResize_of_le _ _ h4]

/-- C4: on a loaded session with capacity `limit ≥ 0` and a prompt that tokenizes to
`n ≥ limit` tokens, the first decode that `generate` submits is, at position 0, the
batch of exactly the first `limit / 2` tokens of the tokenization; and when that
prefill decode succeeds, `contextUsed()` after a `generate` with `maxTokens = 0` is
`limit / 2`, which is `n` only when `n = 0`. -/
theorem generate_truncates_prefill (E : Engine) (s : Session) (prompt : List Nat)
    (maxTokens : Int) (hctx : s.g_ctx ≠ 0) (hmodel : s.g_model ≠ 0)
    (hlim : 0 ≤ nCtxMax E) (hn : nCtxMax E ≤ E.llama_tokenize)
    (hpre : E.prefill_decode = 0) :
    (generate E s prompt maxTokens).trace.take 4 =
      [Event.llama_n_vocab, Event.llama_tokenize prompt, Event.llama_n_ctx,
        Event.llama_decode ((tokenization E prompt).take (nCtxMax E / 2).toNat) 0] ∧
    (((tokenization E prompt).take (nCtxMax E / 2).toNat).length : Int) = nCtxMax E / 2 ∧
    getContextUsed (generate E s prompt 0).session = nCtxMax E / 2 ∧
    (getContextUsed (generate E s prompt 0).session = E.llama_tokenize ↔
      E.llama_tokenize = 0) := by
  have hl : ¬ (s.g_ctx = 0 ∨ s.g_model = 0) := by simp [hctx, hmodel]
  have hn0 : 0 ≤ E.llama_tokenize := le_trans hlim hn
  have hb := contextBudget_truncates E prompt hlim hn
  have hlen : ((tokenization E prompt).take (nCtxMax E / 2).toNat).length
      = (nCtxMax E / 2).toNat := by
    rw [List.length_take, length_tokenization]; omega
  have hbatch : batchGetOne ((tokenization E prompt).take (nCtxMax E / 2).toNat)
      (nCtxMax E / 2) = (tokenization E prompt).take (nCtxMax E / 2).toNat := by
    unfold batchGetOne
    rw [List.take_take, min_self]
  have hcur : getContextUsed (generate E s prompt 0).session = nCtxMax E / 2 := by
    rw [generate_prefilled E s prompt 0 hl hn0 _ _ hb hpre]
    simp only [getContextUsed, Int.toNat_zero, decodeLoop_zero]
  refine ⟨?_, ?_, hcur, ?_⟩
  · rw [generate_prefilled E s prompt maxTokens hl hn0 _ _ hb hpre, hbatch]
    simp only [List.cons_append, List.nil_append, List.take_succ_cons, List.take_zero]
  · rw [hlen]; omega
  · rw [hcur]; omega

/-- C4, at a concrete call: capacity 8 and a prompt of 9 tokens `7, ..., 15` give a
prefill batch of the first 4 tokens and `contextUsed() = 4`. -/
theorem generate_truncates_prefill_witness :
    (generate (sampleEngine 9 8 0) loadedSession [104, 105] 0).trace.take 4 =
      [Event.llama_n_vocab, Event.llama_tokenize [104, 105], Event.llama_n_ctx,
        Event.llama_decode [7, 8, 9, 10] 0] ∧
    getContextUsed (generate (sampleEngine 9 8 0) loadedSession [104, 105] 0).session = 4 :=
  ⟨(generate_truncates_prefill (sampleEngine 9 8 0) loadedSession [104, 105] 0
      (by decide) (by decide) (by decide) (by decide) rfl).1,
   (generate_truncates_prefill (sampleEngine 9 8 0) loadedSession [104, 105] 0
      (by decide) (by decide) (by decide) (by decide) rfl).2.2.1⟩

/-! ## Failures before the loop, stale aborts, unload -/

/-- C5: a `generate` call that fails before the decode loop (no model loaded, or a
negative tokenization length, or a non-zero prefill decode) leaves the model handle,
the context handle and the cursor as they were and makes no `onToken` call; when no
model is loaded it makes no engine call at all and leaves the abort flag as it was. -/
theorem generate_failure_keeps_session (E : Engine) (s : Session) (prompt : List Nat)
    (maxTokens : Int)
    (hfail : (s.g_ctx = 0 ∨ s.g_model = 0) ∨ E.llama_tokenize < 0 ∨ E.prefill_decode ≠ 0) :
    (generate E s prompt maxTokens).session.g_model = s.g_model ∧
    (generate E s prompt maxTokens).session.g_ctx = s.g_ctx ∧
    getContextUsed (generate E s prompt maxTokens).session = getContextUsed s ∧
    countOnToken (generate E s prompt maxTokens).trace = 0 ∧
    ((s.g_ctx = 0 ∨ s.g_model = 0) →
      engineCalls (generate E s prompt maxTokens).trace = [] ∧
      (generate E s prompt maxTokens).session.g_abort = s.g_abort) := by
  by_cases hl : s.g_ctx = 0 ∨ s.g_model = 0
  · rw [generate_not_loaded E s prompt maxTokens hl]
    exact ⟨rfl, rfl, rfl, rfl, fun _ => ⟨rfl, rfl⟩⟩
  · by_cases htok : E.llama_tokenize < 0
    · rw [generate_tokenize_failed E s prompt maxTokens hl htok]
      exact ⟨rfl, rfl, rfl, rfl, fun h => absurd h hl⟩
    · have htok' : 0 ≤ E.llama_tokenize := not_lt.mp htok
      have hpre : E.prefill_decode ≠ 0 := by
        rcases hfail with h | h | h
        · exact absurd h hl
        · exact absurd h htok
        · exact h
      cases hb : contextBudget (tokenization E prompt) E.llama_tokenize (nCtxMax E) with
      | none =>
        rw [generate_threw E s prompt maxTokens hl htok' hb]
        exact ⟨rfl, rfl, rfl, rfl, fun h => absurd h hl⟩
      | some p =>
        obtain ⟨tokens, nTokens⟩ := p
        rw [generate_prefill_failed E s prompt maxTokens hl htok' tokens nTokens hb hpre]
        exact ⟨rfl, rfl, rfl, rfl, fun h => absurd h hl⟩

/-- C5, at concrete calls: a failed prefill after an earlier generation keeps the
cursor at 15, and a call with no model loaded makes no engine call. -/
theorem generate_failure_keeps_session_witness :
    getContextUsed (generate (sampleEngine 3 2048 1)
      { loadedSession with g_n_cur := 15 } [104, 105] 4).session = 15 ∧
    engineCalls (generate (sampleEngine 3 2048 0) (abort Session.init) [104, 105] 4).trace
      = [] ∧
    (generate (sampleEngine 3 2048 0) (abort Session.init) [104, 105] 4).session.g_abort
      = true :=
  ⟨(generate_failure_keeps_session (sampleEngine 3 2048 1)
      { loadedSession with g_n_cur := 15 } [104, 105] 4
      (Or.inr (Or.inr (by decide)))).2.2.1,
   (generate_failure_keeps_session (sampleEngine 3 2048 0) (abort Session.init)
      [104, 105] 4 (Or.inl (Or.inl rfl))).2.2.2.2 (Or.inl rfl)⟩

/-- C6: on a loaded session, a `generate` call started with the abort flag set, by a
`requestAbort` before the call, makes the same engine calls and sink calls, ends in
the same state and returns or throws the same as the call started with the flag
clear; when tokenization and prefill succeed it submits the prefill batch at
position 0 and `onDone` is called once. -/
theorem generate_ignores_stale_abort (E : Engine) (s : Session) (prompt : List Nat)
    (maxTokens : Int) (hctx : s.g_ctx ≠ 0) (hmodel : s.g_model ≠ 0) :
    generate E (abort s) prompt maxTokens =
      generate E { s with g_abort := false } prompt maxTokens ∧
    (0 ≤ E.llama_tokenize → E.prefill_decode = 0 →
      (generate E (abort s) prompt maxTokens).threw = false →
      (∃ batch, (generate E (abort s) prompt maxTokens).trace.take 4 =
        [Event.llama_n_vocab, Event.llama_tokenize prompt, Event.llama_n_ctx,
          Event.llama_decode batch 0]) ∧
      countOnDone (generate E (abort s) prompt maxTokens).trace = 1) := by
  have hl : ¬ ((abort s).g_ctx = 0 ∨ (abort s).g_model = 0) := by
    simp [abort, hctx, hmodel]
  refine ⟨?_, ?_⟩
  · have hl' : ¬ (s.g_ctx = 0 ∨ s.g_model = 0) := by simp [hctx, hmodel]
    simp [generate, abort, hl']
  · intro htok hpre hret
    cases hb : contextBudget (tokenization E prompt) E.llama_tokenize (nCtxMax E) with
    | none =>
      rw [generate_threw E (abort s) prompt maxTokens hl htok hb] at hret
      simp at hret
    | some p =>
      obtain ⟨tokens, nTokens⟩ := p
      obtain ⟨frags, _, _, hs, _⟩ :=
        sinkCalls_generate E (abort s) prompt maxTokens hctx hmodel htok hpre hret
      refine ⟨⟨batchGetOne tokens nTokens, ?_⟩, countOnDone_of_sinkCalls _ frags hs⟩
      rw [generate_prefilled E (abort s) prompt maxTokens hl htok tokens nTokens hb hpre]
      rfl

/-- C6, at a concrete call: after `requestAbort`, two tokens are still generated. -/
theorem generate_ignores_stale_abort_witness :
    generate (sampleEngine 3 2048 0) (abort loadedSession) [104, 105] 2 =
      generate (sampleEngine 3 2048 0) { loadedSession with g_abort := false } [104, 105] 2 ∧
    countOnToken (generate (sampleEngine 3 2048 0) (abort loadedSession) [104, 105] 2).trace
      = 2 ∧
    countOnDone (generate (sampleEngine 3 2048 0) (abort loadedSession) [104, 105] 2).trace
      = 1 :=
  ⟨(generate_ignores_stale_abort (sampleEngine 3 2048 0) loadedSession [104, 105] 2
      (by decide) (by decide)).1, by decide,
   ((generate_ignores_stale_abort (sampleEngine 3 2048 0) loadedSession [104, 105] 2
      (by decide) (by decide)).2 (by decide) rfl (by decide)).2⟩

theorem freeModel_session (s : Session) :
    (freeModel s).1 = { g_model := 0, g_ctx := 0, g_n_cur := 0, g_abort := true } := by
  by_cases h1 : s.g_ctx = 0 <;> by_cases h2 : s.g_model = 0 <;>
    simp [freeModel, releaseHandles, h1, h2]

/-- C7: `freeModel` is idempotent on the session: from every session, the initial one
included, it leaves both handles null, the cursor 0 (so `contextUsed()` is 0) and the
cancellation flag set, and a second call changes nothing. -/
theorem freeModel_idempotent (s : Session) :
    (freeModel (freeModel s).1).1 = (freeModel s).1 ∧
    (freeModel s).1 = { g_model := 0, g_ctx := 0, g_n_cur := 0, g_abort := true } ∧
    getContextUsed (freeModel s).1 = 0 ∧
    (freeModel (freeModel Session.init).1).1 = (freeModel Session.init).1 ∧
    getContextUsed (freeModel Session.init).1 = 0 := by
  refine ⟨by rw [freeModel_session, freeModel_session], freeModel_session s, ?_, ?_, ?_⟩
  · rw [freeModel_session]; rfl
  · rw [freeModel_session, freeModel_session]
  · rw [freeModel_session]; rfl

/-! ## Handles and cursor across calls -/

theorem generate_handles (E : Engine) (s : Session) (prompt : List Nat) (maxTokens : Int) :
    (generate E s prompt maxTokens).session.g_model = s.g_model ∧
    (generate E s prompt maxTokens).session.g_ctx = s.g_ctx := by
  by_cases hl : s.g_ctx = 0 ∨ s.g_model = 0
  · rw [generate_not_loaded E s prompt maxTokens hl]; exact ⟨rfl, rfl⟩
  · by_cases htok : E.llama_tokenize < 0
    · rw [generate_tokenize_failed E s prompt maxTokens hl htok]; exact ⟨rfl, rfl⟩
    · have htok' : 0 ≤ E.llama_tokenize := not_lt.mp htok
      cases hb : contextBudget (tokenization E prompt) E.llama_tokenize (nCtxMax E) with
      | none => rw [generate_threw E s prompt maxTokens hl htok' hb]; exact ⟨rfl, rfl⟩
      | some p =>
        obtain ⟨tokens, nTokens⟩ := p
        by_cases hpre : E.prefill_decode = 0
        · rw [generate_prefilled E s prompt maxTokens hl htok' tokens nTokens hb hpre]
          exact ⟨rfl, rfl⟩
        · rw [generate_prefill_failed E s prompt maxTokens hl htok' tokens nTokens hb hpre]
          exact ⟨rfl, rfl⟩

theorem releaseHandles_session (s : Session) :
    (releaseHandles s).1 = { s with g_model := 0, g_ctx := 0 } := by
  by_cases h1 : s.g_ctx = 0 <;> by_cases h2 : s.g_model = 0 <;>
    simp [releaseHandles, h1, h2]

/-- The three ways out of `loadModel`. -/
theorem loadModel_cases (L : LoadEngine) (s : Session) (modelPath : List Nat)
    (nThreads nCtx : Int) :
    (L.llama_load_model_from_file = 0 ∧
      (loadModel L s modelPath nThreads nCtx).ret = -1 ∧
      (loadModel L s modelPath nThreads nCtx).session = { s with g_model := 0, g_ctx := 0 }) ∨
    (L.llama_load_model_from_file ≠ 0 ∧ L.llama_new_context_with_model = 0 ∧
      (loadModel L s modelPath nThreads nCtx).ret = -1 ∧
      (loadModel L s modelPath nThreads nCtx).session = { s with g_model := 0, g_ctx := 0 } ∧
      (loadModel L s modelPath nThreads nCtx).trace.getLast? =
        some (Event.llama_free_model L.llama_load_model_from_file)) ∨
    (L.llama_load_model_from_file ≠ 0 ∧ L.llama_new_context_with_model ≠ 0 ∧
      (loadModel L s modelPath nThreads nCtx).ret = wrapInt64 L.llama_new_context_with_model ∧
      (loadModel L s modelPath nThreads nCtx).session =
        { s with g_model := L.llama_load_model_from_file,
                 g_ctx := L.llama_new_context_with_model, g_n_cur := 0 }) := by
  by_cases hm : L.llama_load_model_from_file = 0
  · left
    simp [loadModel, hm, releaseHandles_session]
  · by_cases hc : L.llama_new_context_with_model = 0
    · right; left
      simp [loadModel, hm, hc, releaseHandles_session]
    · right; right
      simp [loadModel, hm, hc, releaseHandles_session]

/-- A context address cast to `jlong` is never `-1`. -/
theorem wrapInt64_ctx_ne (L : LoadEngine) :
    wrapInt64 L.llama_new_context_with_model ≠ -1 := by
  have h1 := L.ctx_aligned
  have h2 := L.ctx_fits
  unfold wrapInt64
  omega

/-- Right after a successful load `contextUsed()` is 0. -/
theorem loadModel_cursor (L : LoadEngine) (s : Session) (modelPath : List Nat)
    (nThreads nCtx : Int) (hm : L.llama_load_model_from_file ≠ 0)
    (hc : L.llama_new_context_with_model ≠ 0) :
    getContextUsed (loadModel L s modelPath nThreads nCtx).session = 0 := by
  rcases loadModel_cases L s modelPath nThreads nCtx with h | h | h
  · exact absurd h.1 hm
  · exact absurd h.2.1 hc
  · rw [h.2.2.2]; rfl

theorem step_paired (s s' : Session) (c : Call) (h : s.g_ctx = 0 ↔ s.g_model = 0)
    (hs : step s c = some s') : (s'.g_ctx = 0 ↔ s'.g_model = 0) := by
  cases c with
  | load L p t n =>
    simp only [step, Option.some.injEq] at hs
    subst hs
    rcases loadModel_cases L s p t n with h1 | h1 | h1
    · rw [h1.2.2]
    · rw [h1.2.2.2.1]
    · rw [h1.2.2.2]; simp [h1.1, h1.2.1]
  | generate E p m =>
    simp only [step] at hs
    split at hs
    · exact absurd hs (by simp)
    · simp only [Option.some.injEq] at hs
      subst hs
      rw [(generate_handles E s p m).1, (generate_handles E s p m).2]
      exact h
  | requestAbort =>
    simp only [step, Option.some.injEq] at hs
    subst hs
    exact h
  | unload =>
    simp only [step, Option.some.injEq] at hs
    subst hs
    rw [freeModel_session]

theorem run_paired (calls : List Call) :
    ∀ (s s' : Session), (s.g_ctx = 0 ↔ s.g_model = 0) → run calls s = some s' →
      (s'.g_ctx = 0 ↔ s'.g_model = 0) := by
  induction calls with
  | nil =>
    intro s s' h hr
    simp only [run, Option.some.injEq] at hr
    subst hr
    exact h
  | cons c cs ih =>
    intro s s' h hr
    simp only [run] at hr
    cases hst : step s c with
    | none => rw [hst] at hr; exact absurd hr (by simp)
    | some s1 =>
      rw [hst] at hr
      exact ih s1 s' (step_paired s s1 c h hst) hr

/-- C8 fails on the code: after a successful load, a generation that prefills a
10-token prompt, and a load that fails at model creation, the session is unloaded
(both handles null) and `contextUsed()` returns 10, not 0. -/
theorem failed_load_keeps_cursor :
    (run staleCursorCalls Session.init).map
      (fun s => (s.g_model, s.g_ctx, getContextUsed s)) = some (0, 0, 10) := by
  decide

/-- C9: at the return of every sequence of load, generate, requestAbort and unload
calls the context handle is null exactly when the model handle is null.  A load, from
any session, returns -1 exactly when model creation or context creation fails, and
then both handles are null; otherwise both handles are non-null.  When context
creation fails, the last engine call of the load releases the fresh model. -/
theorem handles_paired (calls : List Call) (s : Session) (L : LoadEngine) (s0 : Session)
    (modelPath : List Nat) (nThreads nCtx : Int)
    (hrun : run calls Session.init = some s) :
    (s.g_ctx = 0 ↔ s.g_model = 0) ∧
    ((loadModel L s0 modelPath nThreads nCtx).ret = -1 ↔
      (L.llama_load_model_from_file = 0 ∨ L.llama_new_context_with_model = 0)) ∧
    ((loadModel L s0 modelPath nThreads nCtx).session.g_model = 0 ↔
      (L.llama_load_model_from_file = 0 ∨ L.llama_new_context_with_model = 0)) ∧
    ((loadModel L s0 modelPath nThreads nCtx).session.g_ctx = 0 ↔
      (L.llama_load_model_from_file = 0 ∨ L.llama_new_context_with_model = 0)) ∧
    (L.llama_load_model_from_file ≠ 0 ∧ L.llama_new_context_with_model = 0 →
      (loadModel L s0 modelPath nThreads nCtx).trace.getLast? =
        some (Event.llama_free_model L.llama_load_model_from_file)) := by
  refine ⟨run_paired calls Session.init s (by simp [Session.init]) hrun, ?_⟩
  have hne := wrapInt64_ctx_ne L
  rcases loadModel_cases L s0 modelPath nThreads nCtx with h | h | h
  · rw [h.2.1, h.2.2]
    simp [h.1]
  · rw [h.2.2.1, h.2.2.2.1]
    simp [h.1, h.2.1, h.2.2.2.2]
  · rw [h.2.2.1, h.2.2.2]
    simp [h.1, h.2.1, hne]

/-- C9, at concrete calls: after a load, a generation, an abort request, an unload and
a second load both handles are set; a load that fails at model creation on a loaded
session returns -1 and leaves both handles null. -/
theorem handles_paired_witness :
    run sampleCalls Session.init = some reloadedSession ∧
    (reloadedSession.g_ctx = 0 ↔ reloadedSession.g_model = 0) ∧
    (loadModel failingLoad loadedSession [47, 120] 4 2048).ret = -1 ∧
    (loadModel failingLoad loadedSession [47, 120] 4 2048).session.g_model = 0 ∧
    (loadModel failingLoad loadedSession [47, 120] 4 2048).session.g_ctx = 0 :=
  ⟨by decide,
   (handles_paired sampleCalls reloadedSession failingLoad loadedSession [47, 120] 4 2048
      (by decide)).1,
   (handles_paired sampleCalls reloadedSession failingLoad loadedSession [47, 120] 4 2048
      (by decide)).2.1.mpr (Or.inl rfl),
   (handles_paired sampleCalls reloadedSession failingLoad loadedSession [47, 120] 4 2048
      (by decide)).2.2.1.mpr (Or.inl rfl),
   (handles_paired sampleCalls reloadedSession failingLoad loadedSession [47, 120] 4 2048
      (by decide)).2.2.2.1.mpr (Or.inl rfl)⟩

/-- C10 fails on the code: with capacity 6 and a prompt that tokenizes to the two
tokens `7, 8`, the budget check fires (`2 ≥ 6 - 4`) and `resize(3)` grows the vector,
so the prefill batch is `7, 8, 0`: longer than the tokenizer's output and not a prefix
of it. -/
theorem generate_pads_short_prompt :
    nCtxMax (sampleEngine 2 6 0) = 6 ∧
    tokenization (sampleEngine 2 6 0) [104, 105] = [7, 8] ∧
    (generate (sampleEngine 2 6 0) loadedSession [104, 105] 0).trace.take 4 =
      [Event.llama_n_vocab, Event.llama_tokenize [104, 105], Event.llama_n_ctx,
        Event.llama_decode [7, 8, 0] 0] ∧
    ¬ (([7, 8, 0] : List Token) <+: [7, 8]) ∧
    getContextUsed (generate (sampleEngine 2 6 0) loadedSession [104, 105] 0).session = 3 := by
  decide

end PrivacyShield
